import Mathlib

/-!
# communication_netmanager_ext: Ethernet service and tethering main state machine

A shallow embedding of

* `services/ethernetmanager/src/ethernet_service.cpp` (class `EthernetService`), and
* `services/networksharemanager/include/networkshare_main_statemachine.h`
  (class `NetworkShareMainStateMachine`, of which only the declaration is available; its
  member-function bodies are modelled from the written specification).

Stateful member functions become functions from the object state to a record holding the
return value, the object state afterwards and the list of calls made to collaborators.
Logging macros and the unused `gettimeofday` reads of `OnStart` have no effect on any
member and are left out.
-/

namespace OHOS
namespace NetManagerStandard

/-! ## Part 1: `EthernetService` (ethernet_service.cpp) -/

/-- ethernet_service.cpp:35 -/
def DEPENDENT_SERVICE_NET_CONN_MANAGER : Nat := 0x0001

/-- ethernet_service.cpp:36 -/
def DEPENDENT_SERVICE_COMMON_EVENT : Nat := 0x0002

/-- ethernet_service.cpp:37 -/
def DEPENDENT_SERVICE_All : Nat := 0x0003

/-- Width of `dependentServiceState_` (the constants it is combined with are `uint16_t`). -/
def UINT16_MOD : Nat := 2 ^ 16

/-- The two values of `state_` the source names (`STATE_RUNNING`, `STATE_STOPPED`); the
enumeration itself is declared in a header that is not part of the sources at hand. -/
inductive ServiceRunningState where
  | STATE_STOPPED
  | STATE_RUNNING
  deriving DecidableEq, Repr

/-- The two capabilities the source passes to `NetManagerPermission::CheckPermission`. -/
inductive Permission where
  | CONNECTIVITY_INTERNAL
  | GET_NETWORK_INFO
  deriving DecidableEq, Repr

/-- `OHOS::nmd::InterfaceConfigurationParcel`: the source touches only `ifName`; every
other member is carried along in `others`. -/
structure InterfaceConfigurationParcel (X : Type) where
  ifName : String
  others : X
  deriving DecidableEq, Repr

/-- `EthernetServiceCommon`, created by `Init`; it has no member the source reads. -/
structure EthernetServiceCommon where
  deriving DecidableEq, Repr

/-- Calls observed while a member function runs: calls to the collaborators
(`NetManagerPermission`, `EthernetManagement`, `NetsysController`, the system-ability
framework, `NetManagerCenter`) and the internal calls `Init` / `InitManagement`. -/
inductive Call (IC X : Type) where
  | CheckPermission (permission : Permission)
  | Init
  | InitManagement
  | Publish
  | AddSystemAbilityListener (systemAbilityId : Int)
  | NewEthernetServiceCommon
  | RegisterEthernetService
  | MakeEthernetManagement
  | ManagementInit
  | UpdateDevInterfaceCfg (iface : String) (ic : Option IC)
  | GetDevInterfaceCfg (iface : String)
  | IsIfaceActive (iface : String)
  | GetAllActiveIfaces
  | ResetFactory
  | NetsysSetInterfaceUp (iface : String)
  | NetsysSetInterfaceDown (iface : String)
  | NetsysInterfaceGetConfig (config : InterfaceConfigurationParcel X)
  deriving DecidableEq, Repr

/-- Calls that reach the `EthernetManagement` object (construction included). -/
def Call.toManagement {IC X : Type} : Call IC X → Bool
  | .MakeEthernetManagement => true
  | .ManagementInit => true
  | .UpdateDevInterfaceCfg _ _ => true
  | .GetDevInterfaceCfg _ => true
  | .IsIfaceActive _ => true
  | .GetAllActiveIfaces => true
  | .ResetFactory => true
  | _ => false

/-- Calls that reach `NetsysController`. -/
def Call.toNetsys {IC X : Type} : Call IC X → Bool
  | .NetsysSetInterfaceUp _ => true
  | .NetsysSetInterfaceDown _ => true
  | .NetsysInterfaceGetConfig _ => true
  | _ => false

/-- The call is the construction of the `EthernetManagement` object. -/
def Call.isMakeEthernetManagement {IC X : Type} : Call IC X → Bool
  | .MakeEthernetManagement => true
  | _ => false

/-- The call is `EthernetManagement::Init`. -/
def Call.isManagementInit {IC X : Type} : Call IC X → Bool
  | .ManagementInit => true
  | _ => false

/-- The call is the internal call of `InitManagement`. -/
def Call.isInitManagement {IC X : Type} : Call IC X → Bool
  | .InitManagement => true
  | _ => false

/-- The call is `Publish`. -/
def Call.isPublish {IC X : Type} : Call IC X → Bool
  | .Publish => true
  | _ => false

/-- The call is the internal call of `Init`. -/
def Call.isInit {IC X : Type} : Call IC X → Bool
  | .Init => true
  | _ => false

/-- Everything `ethernet_service.cpp` uses but does not define: constants of other headers
and the behaviour of the collaborating objects. `Mgmt` is the state of an
`EthernetManagement` object, `IC` is `InterfaceConfiguration`. The two system-ability ids
are `case` labels of one `switch`, hence distinct. -/
structure Collaborators (Mgmt IC X : Type) where
  ETHERNET_ERROR : Int
  NO_ERROR : Int
  COMM_NET_CONN_MANAGER_SYS_ABILITY_ID : Int
  COMMON_EVENT_SERVICE_ID : Int
  ids_distinct : COMM_NET_CONN_MANAGER_SYS_ABILITY_ID ≠ COMMON_EVENT_SERVICE_ID
  REGISTER_LOCAL_RESULT_ETH : Bool
  CheckPermission : Permission → Bool
  Publish : Bool
  NewEthernetServiceCommon : Option EthernetServiceCommon
  MakeEthernetManagement : Mgmt
  ManagementInit : Mgmt → Mgmt
  UpdateDevInterfaceCfg : Mgmt → String → Option IC → Int × Mgmt
  GetDevInterfaceCfg : Mgmt → String → Option IC × Mgmt
  IsIfaceActive : Mgmt → String → Int × Mgmt
  GetAllActiveIfaces : Mgmt → List String × Mgmt
  ResetFactory : Mgmt → Int × Mgmt
  NetsysSetInterfaceUp : String → Int
  NetsysSetInterfaceDown : String → Int
  NetsysInterfaceGetConfig : InterfaceConfigurationParcel X → Int × InterfaceConfigurationParcel X

/-- The members of `EthernetService` the source reads or writes. -/
structure EthernetService (Mgmt : Type) where
  state_ : ServiceRunningState
  registerToService_ : Bool
  dependentServiceState_ : Nat
  ethManagement_ : Option Mgmt
  serviceComm_ : Option EthernetServiceCommon
  deriving DecidableEq, Repr

/-- Result of running a member function: return value, object afterwards, calls made. -/
structure Ran (R S E : Type) where
  ret : R
  post : S
  calls : List E
  deriving DecidableEq, Repr

section EthernetServiceOps

variable {Mgmt IC X : Type}

/-- ethernet_service.cpp:102-124 -/
def EthernetService.Init (env : Collaborators Mgmt IC X) (s : EthernetService Mgmt) :
    Ran Bool (EthernetService Mgmt) (Call IC X) :=
  if !env.REGISTER_LOCAL_RESULT_ETH then
    ⟨false, s, []⟩
  else
    let published : Option (EthernetService Mgmt × List (Call IC X)) :=
      if !s.registerToService_ then
        if !env.Publish then none
        else some ({ s with registerToService_ := true }, [Call.Publish])
      else some (s, [])
    match published with
    | none => ⟨false, s, [Call.Publish]⟩
    | some (s1, c1) =>
      let c2 := c1 ++ [Call.AddSystemAbilityListener env.COMM_NET_CONN_MANAGER_SYS_ABILITY_ID,
                       Call.AddSystemAbilityListener env.COMMON_EVENT_SERVICE_ID,
                       Call.NewEthernetServiceCommon]
      let s2 := { s1 with serviceComm_ := env.NewEthernetServiceCommon }
      if s2.serviceComm_ = none then
        ⟨false, s2, c2⟩
      else
        ⟨true, s2, c2 ++ [Call.RegisterEthernetService]⟩

/-- ethernet_service.cpp:46-62 -/
def EthernetService.OnStart (env : Collaborators Mgmt IC X) (s : EthernetService Mgmt) :
    Ran Unit (EthernetService Mgmt) (Call IC X) :=
  if s.state_ = ServiceRunningState.STATE_RUNNING then
    ⟨(), s, []⟩
  else
    let r := EthernetService.Init env s
    if !r.ret then
      ⟨(), r.post, Call.Init :: r.calls⟩
    else
      ⟨(), { r.post with state_ := ServiceRunningState.STATE_RUNNING }, Call.Init :: r.calls⟩

/-- ethernet_service.cpp:64-68 -/
def EthernetService.OnStop (s : EthernetService Mgmt) : EthernetService Mgmt :=
  { s with state_ := ServiceRunningState.STATE_STOPPED, registerToService_ := false }

/-- ethernet_service.cpp:126-133 -/
def EthernetService.InitManagement (env : Collaborators Mgmt IC X) (s : EthernetService Mgmt) :
    Ran Unit (EthernetService Mgmt) (Call IC X) :=
  match s.ethManagement_ with
  | none =>
    ⟨(), { s with ethManagement_ := some (env.ManagementInit env.MakeEthernetManagement) },
      [Call.MakeEthernetManagement, Call.ManagementInit]⟩
  | some _ => ⟨(), s, []⟩

/-- ethernet_service.cpp:84-96, the `switch`: the value of `dependentServiceState_`
after the `|=` of the matching `case` (a `uint16_t` assignment). -/
def updateDependentServiceState (env : Collaborators Mgmt IC X) (systemAbilityId : Int)
    (dependentServiceState : Nat) : Nat :=
  if systemAbilityId = env.COMM_NET_CONN_MANAGER_SYS_ABILITY_ID then
    (dependentServiceState ||| DEPENDENT_SERVICE_NET_CONN_MANAGER) % UINT16_MOD
  else if systemAbilityId = env.COMMON_EVENT_SERVICE_ID then
    (dependentServiceState ||| DEPENDENT_SERVICE_COMMON_EVENT) % UINT16_MOD
  else
    dependentServiceState

/-- The bit a system-ability id stands for in `dependentServiceState_`: the constant of
its `case`, or no bit for the `default` case. -/
def dependentServiceBit (env : Collaborators Mgmt IC X) (systemAbilityId : Int) : Nat :=
  if systemAbilityId = env.COMM_NET_CONN_MANAGER_SYS_ABILITY_ID then
    DEPENDENT_SERVICE_NET_CONN_MANAGER
  else if systemAbilityId = env.COMMON_EVENT_SERVICE_ID then
    DEPENDENT_SERVICE_COMMON_EVENT
  else 0

/-- ethernet_service.cpp:82-100; `deviceId` is not used by the body. -/
def EthernetService.OnAddSystemAbility (env : Collaborators Mgmt IC X)
    (systemAbilityId : Int) (deviceId : String) (s : EthernetService Mgmt) :
    Ran Unit (EthernetService Mgmt) (Call IC X) :=
  let _ := deviceId
  let s1 := { s with dependentServiceState_ :=
                updateDependentServiceState env systemAbilityId s.dependentServiceState_ }
  if s1.dependentServiceState_ = DEPENDENT_SERVICE_All then
    let r := EthernetService.InitManagement env s1
    ⟨(), r.post, Call.InitManagement :: r.calls⟩
  else
    ⟨(), s1, []⟩

/-- ethernet_service.cpp:135-148 -/
def EthernetService.SetIfaceConfig (env : Collaborators Mgmt IC X) (iface : String)
    (ic : Option IC) (s : EthernetService Mgmt) : Ran Int (EthernetService Mgmt) (Call IC X) :=
  if !env.CheckPermission Permission.CONNECTIVITY_INTERNAL then
    ⟨env.ETHERNET_ERROR, s, [Call.CheckPermission Permission.CONNECTIVITY_INTERNAL]⟩
  else
    match s.ethManagement_ with
    | some m =>
      let r := env.UpdateDevInterfaceCfg m iface ic
      ⟨r.1, { s with ethManagement_ := some r.2 },
        [Call.CheckPermission Permission.CONNECTIVITY_INTERNAL, Call.UpdateDevInterfaceCfg iface ic]⟩
    | none =>
      ⟨env.ETHERNET_ERROR, s, [Call.CheckPermission Permission.CONNECTIVITY_INTERNAL]⟩

/-- ethernet_service.cpp:150-163; the null `sptr` is `none`. -/
def EthernetService.GetIfaceConfig (env : Collaborators Mgmt IC X) (iface : String)
    (s : EthernetService Mgmt) : Ran (Option IC) (EthernetService Mgmt) (Call IC X) :=
  if !env.CheckPermission Permission.GET_NETWORK_INFO then
    ⟨none, s, [Call.CheckPermission Permission.GET_NETWORK_INFO]⟩
  else
    match s.ethManagement_ with
    | some m =>
      let r := env.GetDevInterfaceCfg m iface
      ⟨r.1, { s with ethManagement_ := some r.2 },
        [Call.CheckPermission Permission.GET_NETWORK_INFO, Call.GetDevInterfaceCfg iface]⟩
    | none =>
      ⟨none, s, [Call.CheckPermission Permission.GET_NETWORK_INFO]⟩

/-- ethernet_service.cpp:165-178 -/
def EthernetService.IsIfaceActive (env : Collaborators Mgmt IC X) (iface : String)
    (s : EthernetService Mgmt) : Ran Int (EthernetService Mgmt) (Call IC X) :=
  if !env.CheckPermission Permission.GET_NETWORK_INFO then
    ⟨env.ETHERNET_ERROR, s, [Call.CheckPermission Permission.GET_NETWORK_INFO]⟩
  else
    match s.ethManagement_ with
    | some m =>
      let r := env.IsIfaceActive m iface
      ⟨r.1, { s with ethManagement_ := some r.2 },
        [Call.CheckPermission Permission.GET_NETWORK_INFO, Call.IsIfaceActive iface]⟩
    | none =>
      ⟨env.ETHERNET_ERROR, s, [Call.CheckPermission Permission.GET_NETWORK_INFO]⟩

/-- ethernet_service.cpp:180-192 -/
def EthernetService.GetAllActiveIfaces (env : Collaborators Mgmt IC X)
    (s : EthernetService Mgmt) : Ran (List String) (EthernetService Mgmt) (Call IC X) :=
  if !env.CheckPermission Permission.GET_NETWORK_INFO then
    ⟨[], s, [Call.CheckPermission Permission.GET_NETWORK_INFO]⟩
  else
    match s.ethManagement_ with
    | some m =>
      let r := env.GetAllActiveIfaces m
      ⟨r.1, { s with ethManagement_ := some r.2 },
        [Call.CheckPermission Permission.GET_NETWORK_INFO, Call.GetAllActiveIfaces]⟩
    | none =>
      ⟨[], s, [Call.CheckPermission Permission.GET_NETWORK_INFO]⟩

/-- ethernet_service.cpp:194-201 -/
def EthernetService.ResetFactory (env : Collaborators Mgmt IC X)
    (s : EthernetService Mgmt) : Ran Int (EthernetService Mgmt) (Call IC X) :=
  match s.ethManagement_ with
  | some m =>
    let r := env.ResetFactory m
    ⟨r.1, { s with ethManagement_ := some r.2 }, [Call.ResetFactory]⟩
  | none =>
    ⟨env.ETHERNET_ERROR, s, []⟩

/-- ethernet_service.cpp:203-207 -/
def EthernetService.SetInterfaceUp (env : Collaborators Mgmt IC X) (iface : String)
    (s : EthernetService Mgmt) : Ran Int (EthernetService Mgmt) (Call IC X) :=
  ⟨env.NetsysSetInterfaceUp iface, s, [Call.NetsysSetInterfaceUp iface]⟩

/-- ethernet_service.cpp:209-213 -/
def EthernetService.SetInterfaceDown (env : Collaborators Mgmt IC X) (iface : String)
    (s : EthernetService Mgmt) : Ran Int (EthernetService Mgmt) (Call IC X) :=
  ⟨env.NetsysSetInterfaceDown iface, s, [Call.NetsysSetInterfaceDown iface]⟩

/-- ethernet_service.cpp:215-224; the by-reference `config` is returned next to the
`bool` (first component of `ret`). -/
def EthernetService.GetInterfaceConfig (env : Collaborators Mgmt IC X) (iface : String)
    (config : InterfaceConfigurationParcel X) (s : EthernetService Mgmt) :
    Ran (Bool × InterfaceConfigurationParcel X) (EthernetService Mgmt) (Call IC X) :=
  let config1 := { config with ifName := iface }
  let r := env.NetsysInterfaceGetConfig config1
  if r.1 ≠ env.NO_ERROR then
    ⟨(false, r.2), s, [Call.NetsysInterfaceGetConfig config1]⟩
  else
    ⟨(true, r.2), s, [Call.NetsysInterfaceGetConfig config1]⟩

/-- A sequence of `OnAddSystemAbility` notifications, delivered in order; the calls of all
notifications are concatenated. -/
def EthernetService.OnAddSystemAbilityAll (env : Collaborators Mgmt IC X) :
    List (Int × String) → EthernetService Mgmt →
    Ran Unit (EthernetService Mgmt) (Call IC X)
  | [], s => ⟨(), s, []⟩
  | (systemAbilityId, deviceId) :: rest, s =>
    let r := EthernetService.OnAddSystemAbility env systemAbilityId deviceId s
    let r2 := EthernetService.OnAddSystemAbilityAll env rest r.post
    ⟨(), r2.post, r.calls ++ r2.calls⟩

end EthernetServiceOps

/-- A concrete set of collaborators used to evaluate the model: permission is denied for
every capability, every management and controller call answers `0`. -/
def denyAll : Collaborators Nat Nat Unit where
  ETHERNET_ERROR := -1
  NO_ERROR := 0
  COMM_NET_CONN_MANAGER_SYS_ABILITY_ID := 1151
  COMMON_EVENT_SERVICE_ID := 3299
  ids_distinct := by decide
  REGISTER_LOCAL_RESULT_ETH := true
  CheckPermission := fun _ => false
  Publish := true
  NewEthernetServiceCommon := some {}
  MakeEthernetManagement := 0
  ManagementInit := fun m => m + 1
  UpdateDevInterfaceCfg := fun m _ _ => (0, m + 10)
  GetDevInterfaceCfg := fun m _ => (some 7, m)
  IsIfaceActive := fun m _ => (1, m)
  GetAllActiveIfaces := fun m => (["eth0"], m)
  ResetFactory := fun m => (0, 0 * m)
  NetsysSetInterfaceUp := fun _ => 0
  NetsysSetInterfaceDown := fun _ => 0
  NetsysInterfaceGetConfig := fun c => (0, c)

/-- The same collaborators with every capability granted. -/
def grantAll : Collaborators Nat Nat Unit :=
  { denyAll with CheckPermission := fun _ => true }

/-- A freshly constructed service: stopped, nothing registered, no dependency seen. -/
def freshService : EthernetService Nat :=
  ⟨ServiceRunningState.STATE_STOPPED, false, 0, none, none⟩

/-- A service whose management object exists (both dependencies were seen). -/
def managedService : EthernetService Nat :=
  ⟨ServiceRunningState.STATE_RUNNING, true, 3, some 1, some {}⟩

/-- A notification sequence: NET_CONN_MANAGER, an unrelated id, COMMON_EVENT, and
NET_CONN_MANAGER once more. -/
def sampleNotes : List (Int × String) :=
  [(1151, ""), (7, ""), (3299, ""), (1151, "")]

/-! ## Part 2: `NetworkShareMainStateMachine` (networkshare_main_statemachine.h)

Only the class declaration is available. The data below follows the declaration; the
bodies of the member functions follow the written specification (sections 3 and 4.1). -/

/-- networkshare_main_statemachine.h:27-30; `Sub` is a handle to a
`NetworkShareSubStateMachine`, `none` the null pointer. -/
structure MessageIfaceActive (Sub : Type) where
  value_ : Int
  subsm_ : Option Sub
  deriving DecidableEq, Repr

/-- networkshare_main_statemachine.h:32-35; `Up` stands for `UpstreamNetworkInfo`. -/
structure MessageUpstreamInfo (Up : Type) where
  cmd_ : Int
  upstreamInfo_ : Option Up
  deriving DecidableEq, Repr

/-- The `std::any` payload of an event: one of the two message structures of the header,
or nothing (control events carry no payload). -/
inductive MessageObj (Sub Up : Type) where
  | ifaceActive (msg : MessageIfaceActive Sub)
  | upstreamInfo (msg : MessageUpstreamInfo Up)
  | empty
  deriving DecidableEq, Repr

/-- A value of type `HandleFunc` (header line 38): a pointer to one of the seven member
functions of that signature declared at lines 62-68. -/
inductive HandleFunc where
  | HandleInitInterfaceStateActive
  | HandleInitInterfaceStateInactive
  | HandleAliveInterfaceStateActive
  | HandleAliveInterfaceStateInactive
  | HandleAliveUpstreamMonitorCallback
  | HandleErrorInterfaceStateInactive
  | HandleErrorClear
  deriving DecidableEq, Repr

/-- networkshare_main_statemachine.h:78-83 -/
structure MainSmStateTable where
  event_ : Int
  curState_ : Int
  nextState_ : Int
  func_ : HandleFunc
  deriving DecidableEq, Repr

/-- Modelled from the spec: the status a handler returns. The header only says `int`; the
specification (4.1) names the three outcomes "success / defer / fatal" and has the
dispatcher call `SwitchToErrorState(errType)` on fatal, so the fatal outcome carries that
`errType`. -/
inductive HandlerStatus where
  | success
  | defer
  | fatal (errType : Int)
  deriving DecidableEq, Repr

/-- Modelled from the spec: the numeric ids of the three coordinator states of section 3
("one of {Init, Alive, Error}") and the test for a "non-trivial" error type of section
4.1. Neither the ids nor the test are defined in the header; the ids are pairwise
distinct, nothing else is assumed about them. -/
structure MainStateIds where
  MAINSTATE_INIT : Int
  MAINSTATE_ALIVE : Int
  MAINSTATE_ERROR : Int
  init_ne_alive : MAINSTATE_INIT ≠ MAINSTATE_ALIVE
  init_ne_error : MAINSTATE_INIT ≠ MAINSTATE_ERROR
  alive_ne_error : MAINSTATE_ALIVE ≠ MAINSTATE_ERROR
  isNonTrivial : Int → Bool

/-- The mutable members of `NetworkShareMainStateMachine` (header lines 86-91).
`mutex_` only serialises calls; `networkMonitor_` and `stateTable_` are set by the
constructor and read-only afterwards (section 5), so the table is a parameter of the
operations below. -/
structure NetworkShareMainStateMachine (Sub : Type) where
  netshare_requester_ : String
  errorType_ : Int
  hasSetForward_ : Bool
  subMachineList_ : List Sub
  curState_ : Int
  deriving DecidableEq, Repr

/-- The bodies of the seven handlers, which are not available: each may read the payload,
read and write every member, and returns a status. -/
abbrev HandlerBodies (Sub Up : Type) : Type :=
  HandleFunc → MessageObj Sub Up → NetworkShareMainStateMachine Sub →
    HandlerStatus × NetworkShareMainStateMachine Sub

section MainStateMachineOps

variable {Sub Up : Type}

/-- Modelled from the spec: `InitStateEnter` (declared at header line 69, body missing),
"InitStateEnter resets all transient fields": the forwarding flag and the requester
token of the session (`errorType_` is cleared by `HandleErrorClear`). -/
def InitStateEnter (m : NetworkShareMainStateMachine Sub) : NetworkShareMainStateMachine Sub :=
  { m with hasSetForward_ := false, netshare_requester_ := "" }

/-- Modelled from the spec: `AliveStateEnter` (header line 70, body missing); the
specification gives it no effect on the members. -/
def AliveStateEnter (m : NetworkShareMainStateMachine Sub) : NetworkShareMainStateMachine Sub :=
  m

/-- Modelled from the spec: `ErrorStateEnter` (header line 71, body missing), "tears down
forwarding, instructs all active DownstreamStateMachine instances to deactivate, notifies
UpstreamMonitor to release its binding"; the last two act on other objects, the first
clears `hasSetForward_`. -/
def ErrorStateEnter (m : NetworkShareMainStateMachine Sub) : NetworkShareMainStateMachine Sub :=
  { m with hasSetForward_ := false }

/-- Modelled from the spec: `InitStateExit` (header line 72, body missing); the
specification gives it no effect on the members. -/
def InitStateExit (m : NetworkShareMainStateMachine Sub) : NetworkShareMainStateMachine Sub :=
  m

/-- Modelled from the spec: `AliveStateExit` (header line 73, body missing),
"AliveStateExit removes forwarding and clears netshare_requester_". -/
def AliveStateExit (m : NetworkShareMainStateMachine Sub) : NetworkShareMainStateMachine Sub :=
  { m with hasSetForward_ := false, netshare_requester_ := "" }

/-- Modelled from the spec: `ErrorStateExit` (header line 74, body missing); the
specification gives it no effect on the members. -/
def ErrorStateExit (m : NetworkShareMainStateMachine Sub) : NetworkShareMainStateMachine Sub :=
  m

/-- Modelled from the spec: the exit hook of state `state`, part of the missing body of
`MainSmStateSwitch`; a value that is none of the three ids has no hook. -/
def runExitHook (ids : MainStateIds) (state : Int) (m : NetworkShareMainStateMachine Sub) :
    NetworkShareMainStateMachine Sub :=
  if state = ids.MAINSTATE_INIT then InitStateExit m
  else if state = ids.MAINSTATE_ALIVE then AliveStateExit m
  else if state = ids.MAINSTATE_ERROR then ErrorStateExit m
  else m

/-- Modelled from the spec: the entry hook of state `state`, part of the missing body of
`MainSmStateSwitch`; a value that is none of the three ids has no hook. -/
def runEnterHook (ids : MainStateIds) (state : Int) (m : NetworkShareMainStateMachine Sub) :
    NetworkShareMainStateMachine Sub :=
  if state = ids.MAINSTATE_INIT then InitStateEnter m
  else if state = ids.MAINSTATE_ALIVE then AliveStateEnter m
  else if state = ids.MAINSTATE_ERROR then ErrorStateEnter m
  else m

/-- Modelled from the spec: `MainSmStateSwitch` (header line 52, body missing), "runs the
exit hook of the current state, assigns the new state, runs the entry hook of the new
state". -/
def MainSmStateSwitch (ids : MainStateIds) (newState : Int)
    (m : NetworkShareMainStateMachine Sub) : NetworkShareMainStateMachine Sub :=
  let m1 := runExitHook ids m.curState_ m
  let m2 := { m1 with curState_ := newState }
  runEnterHook ids newState m2

/-- Modelled from the spec: `SwitcheToErrorState` (header line 47, body missing),
"records errType, forces CoordinatorState -> Error, runs the Error-state entry hook.
Idempotent: calling it while already in Error only updates errType if the new one is
non-trivial." -/
def SwitcheToErrorState (ids : MainStateIds) (errType : Int)
    (m : NetworkShareMainStateMachine Sub) : NetworkShareMainStateMachine Sub :=
  if m.curState_ = ids.MAINSTATE_ERROR then
    if ids.isNonTrivial errType then { m with errorType_ := errType } else m
  else
    ErrorStateEnter { m with errorType_ := errType, curState_ := ids.MAINSTATE_ERROR }

/-- Modelled from the spec: the row lookup of `MainSmEventHandle` (body missing),
"dispatch matches on (event, currentState) as a composite key" over "the ordered set of
rows": the first row whose pair equals `(eventId, curState)`. -/
def MainSmLookup (stateTable : List MainSmStateTable) (eventId curState : Int) :
    Option MainSmStateTable :=
  stateTable.find? (fun row => decide (row.event_ = eventId) && decide (row.curState_ = curState))

/-- Modelled from the spec: `MainSmEventHandle` (header line 57, body missing), "looks up
the row matching (eventId, currentState); if found, invokes the row's handler, then
transitions CoordinatorState to the row's nextState only if the handler signals success
... On defer, state does not change ... On fatal, MainCoordinator immediately invokes
SwitchToErrorState(errType) regardless of the row's nextState"; "if no row matches, the
event is a no-op". The calls recorded are the handlers invoked. -/
def MainSmEventHandle (ids : MainStateIds) (stateTable : List MainSmStateTable)
    (handlers : HandlerBodies Sub Up) (eventId : Int) (messageObj : MessageObj Sub Up)
    (m : NetworkShareMainStateMachine Sub) :
    Ran Unit (NetworkShareMainStateMachine Sub) HandleFunc :=
  match MainSmLookup stateTable eventId m.curState_ with
  | none => ⟨(), m, []⟩
  | some row =>
    let r := handlers row.func_ messageObj m
    match r.1 with
    | HandlerStatus.success => ⟨(), MainSmStateSwitch ids row.nextState_ r.2, [row.func_]⟩
    | HandlerStatus.defer => ⟨(), r.2, [row.func_]⟩
    | HandlerStatus.fatal errType => ⟨(), SwitcheToErrorState ids errType r.2, [row.func_]⟩

/-- Modelled from the spec: the invariant of section 3 that "no handler mutates state
outside the table-driven path": a handler returns with `curState_` as it found it. -/
def HandlersKeepState (handlers : HandlerBodies Sub Up) : Prop :=
  ∀ (f : HandleFunc) (messageObj : MessageObj Sub Up) (m : NetworkShareMainStateMachine Sub),
    (handlers f messageObj m).2.curState_ = m.curState_

end MainStateMachineOps

/-- State ids used to evaluate the model: Init 0, Alive 1, Error 2; error type 0 is the
trivial one. -/
def sampleIds : MainStateIds where
  MAINSTATE_INIT := 0
  MAINSTATE_ALIVE := 1
  MAINSTATE_ERROR := 2
  init_ne_alive := by decide
  init_ne_error := by decide
  alive_ne_error := by decide
  isNonTrivial := fun errType => decide (errType ≠ 0)

/-- The machine as constructed: state Init, `hasSetForward_ = false` (header line 88). -/
def constructedMachine : NetworkShareMainStateMachine String :=
  ⟨"", 0, false, [], 0⟩

/-- A dispatch table with the transitions section 4.1 lists: interface active in Init
leads to Alive, interface inactive and upstream change in Alive stay in Alive, the
recovery event in Error leads to Init. -/
def sampleTable : List MainSmStateTable :=
  [⟨1, 0, 1, HandleFunc.HandleInitInterfaceStateActive⟩,
   ⟨2, 1, 1, HandleFunc.HandleAliveInterfaceStateInactive⟩,
   ⟨3, 1, 1, HandleFunc.HandleAliveUpstreamMonitorCallback⟩,
   ⟨4, 2, 0, HandleFunc.HandleErrorClear⟩]

/-- Handler bodies used to evaluate the model: the upstream callback applies forwarding
and defers, the inactive-interface handler fails with error type 7, the recovery handler
clears `errorType_`, the others only report success. -/
def sampleHandlers : HandlerBodies String Unit
  | HandleFunc.HandleAliveUpstreamMonitorCallback, _, m =>
    (HandlerStatus.defer, { m with hasSetForward_ := true })
  | HandleFunc.HandleAliveInterfaceStateInactive, _, m => (HandlerStatus.fatal 7, m)
  | HandleFunc.HandleErrorClear, _, m => (HandlerStatus.success, { m with errorType_ := 0 })
  | _, _, m => (HandlerStatus.success, m)

/-- A machine in Error that recorded error type 5 (the constructed machine after
`SwitcheToErrorState(5)`). -/
def erroredMachine : NetworkShareMainStateMachine String :=
  ⟨"", 5, false, [], 2⟩

/-- A machine in Alive with forwarding applied for requester "hotspot". -/
def forwardingMachine : NetworkShareMainStateMachine String :=
  ⟨"hotspot", 0, true, ["wlan1"], 1⟩

section EthernetServiceFacts

variable {Mgmt IC X : Type}

lemma updateDependentServiceState_spec (env : Collaborators Mgmt IC X) (systemAbilityId : Int)
    (mask : Nat) (hmask : mask ≤ 3) :
    updateDependentServiceState env systemAbilityId mask
        = mask ||| dependentServiceBit env systemAbilityId ∧
      updateDependentServiceState env systemAbilityId mask ≤ 3 ∧
      (updateDependentServiceState env systemAbilityId mask % 2 = 1 ↔
        mask % 2 = 1 ∨ systemAbilityId = env.COMM_NET_CONN_MANAGER_SYS_ABILITY_ID) ∧
      (2 ≤ updateDependentServiceState env systemAbilityId mask ↔
        2 ≤ mask ∨ systemAbilityId = env.COMMON_EVENT_SERVICE_ID) := by
  have hd := env.ids_distinct
  unfold updateDependentServiceState dependentServiceBit
  by_cases h1 : systemAbilityId = env.COMM_NET_CONN_MANAGER_SYS_ABILITY_ID
  · have h2 : systemAbilityId ≠ env.COMMON_EVENT_SERVICE_ID := fun h => hd (h1.symm.trans h)
    simp only [h1, if_true]
    rw [h1] at h2
    interval_cases mask <;>
      simp [DEPENDENT_SERVICE_NET_CONN_MANAGER, UINT16_MOD, h2]
  · by_cases h2 : systemAbilityId = env.COMMON_EVENT_SERVICE_ID
    · simp only [h1, h2, if_true, if_false]
      rw [h2] at h1
      interval_cases mask <;>
        simp [DEPENDENT_SERVICE_COMMON_EVENT, UINT16_MOD, h1]
    · simp only [h1, h2, if_false]
      interval_cases mask <;> simp

lemma once_count_bound (a b : Nat) (p q : Prop) [Decidable p] [Decidable q]
    (hp : p → a = 0) (ha : a ≤ 1) (haq : a ≠ 0 → q) (hpq : p → q)
    (hb : b ≤ if q then 0 else 1) : a + b ≤ if p then 0 else 1 := by
  by_cases h : p
  · have h1 := hp h
    have h2 := hpq h
    rw [if_pos h2] at hb
    rw [if_pos h]
    omega
  · rw [if_neg h]
    by_cases h0 : a = 0
    · have : (if q then 0 else 1) ≤ 1 := by split <;> omega
      omega
    · have h2 := haq h0
      rw [if_pos h2] at hb
      omega

lemma OnAddSystemAbility_step (env : Collaborators Mgmt IC X) (systemAbilityId : Int)
    (deviceId : String) (t : EthernetService Mgmt) :
    (EthernetService.OnAddSystemAbility env systemAbilityId deviceId t).post.dependentServiceState_
        = updateDependentServiceState env systemAbilityId t.dependentServiceState_ ∧
      ((EthernetService.OnAddSystemAbility env systemAbilityId deviceId t).calls.any
          Call.isInitManagement = true ↔
        updateDependentServiceState env systemAbilityId t.dependentServiceState_
          = DEPENDENT_SERVICE_All) ∧
      ((EthernetService.OnAddSystemAbility env systemAbilityId deviceId t).post.ethManagement_.isSome
          = true ↔
        (t.ethManagement_.isSome = true ∨
          updateDependentServiceState env systemAbilityId t.dependentServiceState_
            = DEPENDENT_SERVICE_All)) ∧
      (∀ f : Call IC X → Bool, f = Call.isMakeEthernetManagement ∨ f = Call.isManagementInit →
        (t.ethManagement_.isSome = true →
          (EthernetService.OnAddSystemAbility env systemAbilityId deviceId t).calls.countP f = 0) ∧
        (EthernetService.OnAddSystemAbility env systemAbilityId deviceId t).calls.countP f ≤ 1 ∧
        ((EthernetService.OnAddSystemAbility env systemAbilityId deviceId t).calls.countP f ≠ 0 →
          updateDependentServiceState env systemAbilityId t.dependentServiceState_
            = DEPENDENT_SERVICE_All)) := by
  unfold EthernetService.OnAddSystemAbility EthernetService.InitManagement
  by_cases h : updateDependentServiceState env systemAbilityId t.dependentServiceState_
      = DEPENDENT_SERVICE_All
  · cases he : t.ethManagement_
    · refine ⟨by simp [h], by simp [h, Call.isInitManagement], by simp [h], ?_⟩
      rintro f (rfl | rfl) <;>
        simp [h, Call.isMakeEthernetManagement, Call.isManagementInit]
    · refine ⟨by simp [h], by simp [h, Call.isInitManagement], by simp [h], ?_⟩
      rintro f (rfl | rfl) <;>
        simp [h, Call.isMakeEthernetManagement, Call.isManagementInit]
  · cases he : t.ethManagement_
    · refine ⟨by simp [h], by simp [h, Call.isInitManagement], by simp [h, he], ?_⟩
      rintro f (rfl | rfl) <;> simp [h]
    · refine ⟨by simp [h], by simp [h, Call.isInitManagement], by simp [h, he], ?_⟩
      rintro f (rfl | rfl) <;> simp [h]

lemma OnAddSystemAbilityAll_inv (env : Collaborators Mgmt IC X) :
    ∀ (notes : List (Int × String)) (t : EthernetService Mgmt),
      t.dependentServiceState_ ≤ 3 →
      (t.ethManagement_.isSome = true ↔ t.dependentServiceState_ = DEPENDENT_SERVICE_All) →
      (EthernetService.OnAddSystemAbilityAll env notes t).post.dependentServiceState_ ≤ 3 ∧
      ((EthernetService.OnAddSystemAbilityAll env notes t).post.dependentServiceState_ % 2 = 1 ↔
        t.dependentServiceState_ % 2 = 1 ∨
          env.COMM_NET_CONN_MANAGER_SYS_ABILITY_ID ∈ notes.map Prod.fst) ∧
      (2 ≤ (EthernetService.OnAddSystemAbilityAll env notes t).post.dependentServiceState_ ↔
        2 ≤ t.dependentServiceState_ ∨ env.COMMON_EVENT_SERVICE_ID ∈ notes.map Prod.fst) ∧
      ((EthernetService.OnAddSystemAbilityAll env notes t).post.ethManagement_.isSome = true ↔
        (EthernetService.OnAddSystemAbilityAll env notes t).post.dependentServiceState_
          = DEPENDENT_SERVICE_All) ∧
      (∀ f : Call IC X → Bool, f = Call.isMakeEthernetManagement ∨ f = Call.isManagementInit →
        (EthernetService.OnAddSystemAbilityAll env notes t).calls.countP f
          ≤ (if t.ethManagement_.isSome = true then 0 else 1)) := by
  intro notes
  induction notes with
  | nil =>
    intro t hle hk
    refine ⟨hle, ?_, ?_, hk, ?_⟩
    · simp [EthernetService.OnAddSystemAbilityAll]
    · simp [EthernetService.OnAddSystemAbilityAll]
    · intro f _
      simp [EthernetService.OnAddSystemAbilityAll]
  | cons note rest ih =>
    intro t hle hk
    obtain ⟨systemAbilityId, deviceId⟩ := note
    obtain ⟨hm, -, he, hc⟩ := OnAddSystemAbility_step env systemAbilityId deviceId t
    obtain ⟨-, hb, h1, h2⟩ :=
      updateDependentServiceState_spec env systemAbilityId t.dependentServiceState_ hle
    have hmono : t.dependentServiceState_ = DEPENDENT_SERVICE_All →
        updateDependentServiceState env systemAbilityId t.dependentServiceState_
          = DEPENDENT_SERVICE_All := by
      intro h3
      have h4 := h1.mpr (Or.inl (by rw [h3]; rfl))
      have h5 := h2.mpr (Or.inl (by rw [h3]; decide))
      show _ = 3
      omega
    have hk1 : ((EthernetService.OnAddSystemAbility env systemAbilityId deviceId t).post.ethManagement_.isSome
          = true ↔
        (EthernetService.OnAddSystemAbility env systemAbilityId deviceId t).post.dependentServiceState_
          = DEPENDENT_SERVICE_All) := by
      rw [he, hm, hk]
      constructor
      · rintro (h | h)
        · exact hmono h
        · exact h
      · exact fun h => Or.inr h
    have hle1 : (EthernetService.OnAddSystemAbility env systemAbilityId deviceId t).post.dependentServiceState_
        ≤ 3 := by rw [hm]; exact hb
    obtain ⟨i1, i2, i3, i4, i5⟩ :=
      ih (EthernetService.OnAddSystemAbility env systemAbilityId deviceId t).post hle1 hk1
    simp only [EthernetService.OnAddSystemAbilityAll, List.map_cons, List.mem_cons,
      List.countP_append]
    refine ⟨i1, ?_, ?_, i4, ?_⟩
    · rw [i2, hm, h1]
      constructor
      · rintro ((h | h) | h)
        · exact Or.inl h
        · exact Or.inr (Or.inl h.symm)
        · exact Or.inr (Or.inr h)
      · rintro (h | h | h)
        · exact Or.inl (Or.inl h)
        · exact Or.inl (Or.inr h.symm)
        · exact Or.inr h
    · rw [i3, hm, h2]
      constructor
      · rintro ((h | h) | h)
        · exact Or.inl h
        · exact Or.inr (Or.inl h.symm)
        · exact Or.inr (Or.inr h)
      · rintro (h | h | h)
        · exact Or.inl (Or.inl h)
        · exact Or.inl (Or.inr h.symm)
        · exact Or.inr h
    · intro f hf
      obtain ⟨c1, c2, c3⟩ := hc f hf
      exact once_count_bound _ _ _ _ c1 c2 (fun h => he.mpr (Or.inr (c3 h)))
        (fun h => he.mpr (Or.inl h)) (i5 f hf)

lemma Init_spec (env : Collaborators Mgmt IC X) (s : EthernetService Mgmt) :
    (EthernetService.Init env s).post.state_ = s.state_ ∧
      ((EthernetService.Init env s).ret = true → s.registerToService_ = false →
        (EthernetService.Init env s).calls.any Call.isPublish = true) ∧
      ((EthernetService.Init env s).ret = true →
        (EthernetService.Init env s).post.registerToService_ = true) := by
  unfold EthernetService.Init
  cases h1 : env.REGISTER_LOCAL_RESULT_ETH <;> cases h2 : env.Publish <;>
    cases h3 : s.registerToService_ <;> cases h4 : env.NewEthernetServiceCommon <;>
    simp [h3, Call.isPublish]

/-- C6: the four operations guarded by a permission check. When `CheckPermission` denies
the capability an operation consults (`CONNECTIVITY_INTERNAL` for `SetIfaceConfig`,
`GET_NETWORK_INFO` for `GetIfaceConfig`, `IsIfaceActive`, `GetAllActiveIfaces`), the
operation returns its failure value (`ETHERNET_ERROR`, the null pointer, `ETHERNET_ERROR`,
the empty list), leaves the service as it was and makes no call to `EthernetManagement`,
whether `ethManagement_` is set or null. When the capability is granted and
`ethManagement_` holds an object `mgmt`, the operation returns exactly what the
corresponding `EthernetManagement` call returns on `mgmt`. -/
theorem permission_gate_of_config_operations (env : Collaborators Mgmt IC X)
    (s : EthernetService Mgmt) (iface : String) (ic : Option IC) :
    (env.CheckPermission Permission.CONNECTIVITY_INTERNAL = false →
      (EthernetService.SetIfaceConfig env iface ic s).ret = env.ETHERNET_ERROR ∧
      (EthernetService.SetIfaceConfig env iface ic s).post = s ∧
      (∀ c ∈ (EthernetService.SetIfaceConfig env iface ic s).calls, c.toManagement = false)) ∧
    (env.CheckPermission Permission.GET_NETWORK_INFO = false →
      ((EthernetService.GetIfaceConfig env iface s).ret = none ∧
        (EthernetService.GetIfaceConfig env iface s).post = s ∧
        (∀ c ∈ (EthernetService.GetIfaceConfig env iface s).calls, c.toManagement = false)) ∧
      ((EthernetService.IsIfaceActive env iface s).ret = env.ETHERNET_ERROR ∧
        (EthernetService.IsIfaceActive env iface s).post = s ∧
        (∀ c ∈ (EthernetService.IsIfaceActive env iface s).calls, c.toManagement = false)) ∧
      ((EthernetService.GetAllActiveIfaces env s).ret = [] ∧
        (EthernetService.GetAllActiveIfaces env s).post = s ∧
        (∀ c ∈ (EthernetService.GetAllActiveIfaces env s).calls, c.toManagement = false))) ∧
    (∀ mgmt : Mgmt, s.ethManagement_ = some mgmt →
      (env.CheckPermission Permission.CONNECTIVITY_INTERNAL = true →
        (EthernetService.SetIfaceConfig env iface ic s).ret
          = (env.UpdateDevInterfaceCfg mgmt iface ic).1) ∧
      (env.CheckPermission Permission.GET_NETWORK_INFO = true →
        (EthernetService.GetIfaceConfig env iface s).ret = (env.GetDevInterfaceCfg mgmt iface).1 ∧
        (EthernetService.IsIfaceActive env iface s).ret = (env.IsIfaceActive mgmt iface).1 ∧
        (EthernetService.GetAllActiveIfaces env s).ret = (env.GetAllActiveIfaces mgmt).1)) := by
  refine ⟨?_, ?_, ?_⟩
  · intro h
    simp [EthernetService.SetIfaceConfig, h, Call.toManagement]
  · intro h
    simp [EthernetService.GetIfaceConfig, EthernetService.IsIfaceActive,
      EthernetService.GetAllActiveIfaces, h, Call.toManagement]
  · intro mgmt hm
    constructor
    · intro h
      simp [EthernetService.SetIfaceConfig, h, hm]
    · intro h
      simp [EthernetService.GetIfaceConfig, EthernetService.IsIfaceActive,
        EthernetService.GetAllActiveIfaces, h, hm]

/-- C8: the interface-activation primitives. For every interface name, `SetInterfaceUp`
and `SetInterfaceDown` make exactly one call, to `NetsysController::SetInterfaceUp` /
`SetInterfaceDown` with that name, and return its code unchanged; `GetInterfaceConfig`
makes exactly one call to `InterfaceGetConfig`, with the caller's config in which
`ifName` has been set to `iface` (all other members untouched), and returns `true` if and
only if that call returns `NO_ERROR`. -/
theorem interface_primitives_report_platform_result (env : Collaborators Mgmt IC X)
    (s : EthernetService Mgmt) (iface : String) (config : InterfaceConfigurationParcel X) :
    ((EthernetService.SetInterfaceUp env iface s).ret = env.NetsysSetInterfaceUp iface ∧
      (EthernetService.SetInterfaceUp env iface s).calls = [Call.NetsysSetInterfaceUp iface]) ∧
    ((EthernetService.SetInterfaceDown env iface s).ret = env.NetsysSetInterfaceDown iface ∧
      (EthernetService.SetInterfaceDown env iface s).calls
        = [Call.NetsysSetInterfaceDown iface]) ∧
    ((EthernetService.GetInterfaceConfig env iface config s).calls
        = [Call.NetsysInterfaceGetConfig ⟨iface, config.others⟩] ∧
      ((EthernetService.GetInterfaceConfig env iface config s).ret.1 = true ↔
        (env.NetsysInterfaceGetConfig ⟨iface, config.others⟩).1 = env.NO_ERROR) ∧
      (EthernetService.GetInterfaceConfig env iface config s).ret.2
        = (env.NetsysInterfaceGetConfig ⟨iface, config.others⟩).2) := by
  refine ⟨⟨rfl, rfl⟩, ⟨rfl, rfl⟩, ?_⟩
  unfold EthernetService.GetInterfaceConfig
  by_cases h : (env.NetsysInterfaceGetConfig ⟨iface, config.others⟩).1 = env.NO_ERROR
  · simp [h]
  · simp [h]

/-- C9: dependency tracking of `OnAddSystemAbility`. A single notification, in any state
whose mask is within `0x0003`, ORs the bit of its id into the mask (`0x0001` for the
NET_CONN_MANAGER id, `0x0002` for the COMMON_EVENT id, no bit for any other id), keeps the
mask within `0x0003`, and calls `InitManagement` if and only if the mask equals `0x0003`
after the update. For every sequence of notifications delivered to a service that starts
with mask `0` and no management object: the final mask is exactly the OR of the bits of
the dependent ids that occurred, `ethManagement_` is non-null if and only if both
dependent ids occurred, and over the whole sequence the management object is created at
most once and initialised at most once. -/
theorem OnAddSystemAbility_tracks_dependencies (env : Collaborators Mgmt IC X)
    (s : EthernetService Mgmt) (notes : List (Int × String))
    (hmask : s.dependentServiceState_ = 0) (hnull : s.ethManagement_ = none) :
    (dependentServiceBit env env.COMM_NET_CONN_MANAGER_SYS_ABILITY_ID = 0x0001 ∧
      dependentServiceBit env env.COMMON_EVENT_SERVICE_ID = 0x0002 ∧
      ∀ systemAbilityId : Int, systemAbilityId ≠ env.COMM_NET_CONN_MANAGER_SYS_ABILITY_ID →
        systemAbilityId ≠ env.COMMON_EVENT_SERVICE_ID →
        dependentServiceBit env systemAbilityId = 0) ∧
    (∀ (t : EthernetService Mgmt) (systemAbilityId : Int) (deviceId : String),
      t.dependentServiceState_ ≤ DEPENDENT_SERVICE_All →
      (EthernetService.OnAddSystemAbility env systemAbilityId deviceId t).post.dependentServiceState_
          = t.dependentServiceState_ ||| dependentServiceBit env systemAbilityId ∧
        (EthernetService.OnAddSystemAbility env systemAbilityId deviceId t).post.dependentServiceState_
          ≤ DEPENDENT_SERVICE_All ∧
        ((EthernetService.OnAddSystemAbility env systemAbilityId deviceId t).calls.any
            Call.isInitManagement = true ↔
          (EthernetService.OnAddSystemAbility env systemAbilityId deviceId t).post.dependentServiceState_
            = DEPENDENT_SERVICE_All)) ∧
    (EthernetService.OnAddSystemAbilityAll env notes s).post.dependentServiceState_
      = ((if env.COMM_NET_CONN_MANAGER_SYS_ABILITY_ID ∈ notes.map Prod.fst then 0x0001 else 0) |||
          (if env.COMMON_EVENT_SERVICE_ID ∈ notes.map Prod.fst then 0x0002 else 0)) ∧
    ((EthernetService.OnAddSystemAbilityAll env notes s).post.ethManagement_.isSome = true ↔
      env.COMM_NET_CONN_MANAGER_SYS_ABILITY_ID ∈ notes.map Prod.fst ∧
        env.COMMON_EVENT_SERVICE_ID ∈ notes.map Prod.fst) ∧
    (EthernetService.OnAddSystemAbilityAll env notes s).calls.countP
        Call.isMakeEthernetManagement ≤ 1 ∧
    (EthernetService.OnAddSystemAbilityAll env notes s).calls.countP Call.isManagementInit ≤ 1 := by
  have hd := env.ids_distinct
  have hk : (s.ethManagement_.isSome = true ↔ s.dependentServiceState_ = DEPENDENT_SERVICE_All) := by
    rw [hnull, hmask]
    simp [DEPENDENT_SERVICE_All]
  obtain ⟨i1, i2, i3, i4, i5⟩ := OnAddSystemAbilityAll_inv env notes s (by omega) hk
  rw [hmask] at i2 i3
  have e2 : (EthernetService.OnAddSystemAbilityAll env notes s).post.dependentServiceState_ % 2 = 1 ↔
      env.COMM_NET_CONN_MANAGER_SYS_ABILITY_ID ∈ notes.map Prod.fst := by
    rw [i2]; simp
  have e3 : 2 ≤ (EthernetService.OnAddSystemAbilityAll env notes s).post.dependentServiceState_ ↔
      env.COMMON_EVENT_SERVICE_ID ∈ notes.map Prod.fst := by
    rw [i3]; simp
  have c1 := i5 _ (Or.inl rfl)
  have c2 := i5 _ (Or.inr rfl)
  rw [hnull] at c1 c2
  refine ⟨⟨?_, ?_, ?_⟩, ?_, ?_, ?_, by simpa using c1, by simpa using c2⟩
  · simp [dependentServiceBit, DEPENDENT_SERVICE_NET_CONN_MANAGER]
  · simp [dependentServiceBit, DEPENDENT_SERVICE_COMMON_EVENT, hd.symm]
  · intro systemAbilityId h1 h2
    simp [dependentServiceBit, h1, h2]
  · intro t systemAbilityId deviceId ht
    obtain ⟨hm, hi, -, -⟩ := OnAddSystemAbility_step env systemAbilityId deviceId t
    obtain ⟨u1, u2, -, -⟩ :=
      updateDependentServiceState_spec env systemAbilityId t.dependentServiceState_ ht
    rw [hm]
    exact ⟨u1, u2, hi⟩
  · by_cases hA : env.COMM_NET_CONN_MANAGER_SYS_ABILITY_ID ∈ notes.map Prod.fst <;>
      by_cases hB : env.COMMON_EVENT_SERVICE_ID ∈ notes.map Prod.fst
    · have a := e2.mpr hA
      have b := e3.mpr hB
      rw [if_pos hA, if_pos hB]
      have : (1 : Nat) ||| 2 = 3 := by decide
      omega
    · have a := e2.mpr hA
      have b := mt e3.mp hB
      rw [if_pos hA, if_neg hB]
      have : (1 : Nat) ||| 0 = 1 := by decide
      omega
    · have a := mt e2.mp hA
      have b := e3.mpr hB
      rw [if_neg hA, if_pos hB]
      have : (0 : Nat) ||| 2 = 2 := by decide
      omega
    · have a := mt e2.mp hA
      have b := mt e3.mp hB
      rw [if_neg hA, if_neg hB]
      have : (0 : Nat) ||| 0 = 0 := by decide
      omega
  · rw [i4]
    constructor
    · intro h
      rw [h] at e2 e3
      exact ⟨e2.mp (by decide), e3.mp (by decide)⟩
    · rintro ⟨hA, hB⟩
      have a := e2.mpr hA
      have b := e3.mpr hB
      show _ = 3
      omega

/-- C10: service lifecycle. `OnStart` on a running service returns without calling
`Init`, with every member unchanged. On a service that is not running, `OnStart` calls
`Init`; afterwards `state_` is `STATE_RUNNING` if and only if `Init` returned `true`,
and `state_` is unchanged when `Init` returned `false`. `OnStop` sets `state_` to
`STATE_STOPPED` and `registerToService_` to `false` whatever the state before, so that
an `OnStart` that follows `OnStop` and reaches `STATE_RUNNING` has called `Publish` and
has set `registerToService_` again. -/
theorem service_lifecycle (env : Collaborators Mgmt IC X) (s : EthernetService Mgmt) :
    (s.state_ = ServiceRunningState.STATE_RUNNING →
      (EthernetService.OnStart env s).post = s ∧ (EthernetService.OnStart env s).calls = []) ∧
    (s.state_ ≠ ServiceRunningState.STATE_RUNNING →
      (EthernetService.OnStart env s).calls = Call.Init :: (EthernetService.Init env s).calls ∧
      ((EthernetService.OnStart env s).post.state_ = ServiceRunningState.STATE_RUNNING ↔
        (EthernetService.Init env s).ret = true) ∧
      ((EthernetService.Init env s).ret = false →
        (EthernetService.OnStart env s).post.state_ = s.state_ ∧
        (EthernetService.OnStart env s).post = (EthernetService.Init env s).post)) ∧
    ((EthernetService.OnStop s).state_ = ServiceRunningState.STATE_STOPPED ∧
      (EthernetService.OnStop s).registerToService_ = false ∧
      (EthernetService.OnStop s).dependentServiceState_ = s.dependentServiceState_ ∧
      (EthernetService.OnStop s).ethManagement_ = s.ethManagement_ ∧
      (EthernetService.OnStop s).serviceComm_ = s.serviceComm_) ∧
    ((EthernetService.OnStart env (EthernetService.OnStop s)).post.state_
        = ServiceRunningState.STATE_RUNNING →
      (EthernetService.OnStart env (EthernetService.OnStop s)).calls.any Call.isPublish = true ∧
      (EthernetService.OnStart env (EthernetService.OnStop s)).post.registerToService_ = true) := by
  have key : ∀ t : EthernetService Mgmt, t.state_ ≠ ServiceRunningState.STATE_RUNNING →
      (EthernetService.OnStart env t).calls = Call.Init :: (EthernetService.Init env t).calls ∧
      ((EthernetService.OnStart env t).post.state_ = ServiceRunningState.STATE_RUNNING ↔
        (EthernetService.Init env t).ret = true) ∧
      ((EthernetService.Init env t).ret = false →
        (EthernetService.OnStart env t).post.state_ = t.state_ ∧
        (EthernetService.OnStart env t).post = (EthernetService.Init env t).post) ∧
      ((EthernetService.Init env t).ret = true →
        (EthernetService.OnStart env t).post.registerToService_
          = (EthernetService.Init env t).post.registerToService_) := by
    intro t ht
    have hs := (Init_spec env t).1
    unfold EthernetService.OnStart
    cases hr : (EthernetService.Init env t).ret
    · simp [ht, hr, hs]
    · simp [ht, hr]
  refine ⟨?_, ?_, ⟨rfl, rfl, rfl, rfl, rfl⟩, ?_⟩
  · intro h
    simp [EthernetService.OnStart, h]
  · intro h
    obtain ⟨k1, k2, k3, -⟩ := key s h
    exact ⟨k1, k2, k3⟩
  · intro h
    have hstop : (EthernetService.OnStop s).state_ ≠ ServiceRunningState.STATE_RUNNING := by
      simp [EthernetService.OnStop]
    obtain ⟨k1, k2, -, k4⟩ := key _ hstop
    have hret := k2.mp h
    obtain ⟨-, p2, p3⟩ := Init_spec env (EthernetService.OnStop s)
    refine ⟨?_, ?_⟩
    · rw [k1, List.any_cons]
      rw [p2 hret rfl]
      simp
    · rw [k4 hret]
      exact p3 hret

end EthernetServiceFacts

/-! ## Evaluations of `EthernetService` on concrete collaborators -/

theorem permission_gate_of_config_operations_witness :
    denyAll.CheckPermission Permission.CONNECTIVITY_INTERNAL = false ∧
    ((EthernetService.SetIfaceConfig denyAll "eth0" (some 4) managedService).ret
        = denyAll.ETHERNET_ERROR ∧
      (EthernetService.SetIfaceConfig denyAll "eth0" (some 4) managedService).post
        = managedService ∧
      (∀ c ∈ (EthernetService.SetIfaceConfig denyAll "eth0" (some 4) managedService).calls,
        c.toManagement = false)) ∧
    managedService.ethManagement_ = some 1 ∧
    grantAll.CheckPermission Permission.GET_NETWORK_INFO = true ∧
    (EthernetService.GetIfaceConfig grantAll "eth0" managedService).ret
      = (grantAll.GetDevInterfaceCfg 1 "eth0").1 :=
  ⟨rfl,
    (permission_gate_of_config_operations denyAll managedService "eth0" (some 4)).1 rfl,
    rfl, rfl,
    (((permission_gate_of_config_operations grantAll managedService "eth0" (some 4)).2.2
      1 rfl).2 rfl).1⟩

/-- C7: evaluation where every permission is denied and the management object exists.
`ResetFactory` still calls `EthernetManagement::ResetFactory` and returns its code (not
`ETHERNET_ERROR`), `SetInterfaceUp` and `SetInterfaceDown` still call `NetsysController`
and return its code, and none of the three consults `CheckPermission`; `SetIfaceConfig`,
on the same input, consults it, fails and calls nothing else. -/
theorem unguarded_operations_when_permission_denied :
    denyAll.CheckPermission Permission.CONNECTIVITY_INTERNAL = false ∧
    denyAll.CheckPermission Permission.GET_NETWORK_INFO = false ∧
    (EthernetService.ResetFactory denyAll managedService).calls = [Call.ResetFactory] ∧
    (EthernetService.ResetFactory denyAll managedService).ret = 0 ∧
    (EthernetService.ResetFactory denyAll managedService).ret ≠ denyAll.ETHERNET_ERROR ∧
    (EthernetService.ResetFactory denyAll managedService).post.ethManagement_ = some 0 ∧
    (EthernetService.SetInterfaceUp denyAll "eth0" managedService).calls
      = [Call.NetsysSetInterfaceUp "eth0"] ∧
    (EthernetService.SetInterfaceUp denyAll "eth0" managedService).ret = 0 ∧
    (EthernetService.SetInterfaceDown denyAll "eth0" managedService).calls
      = [Call.NetsysSetInterfaceDown "eth0"] ∧
    (EthernetService.SetInterfaceDown denyAll "eth0" managedService).ret = 0 ∧
    (EthernetService.SetIfaceConfig denyAll "eth0" (some 4) managedService).calls
      = [Call.CheckPermission Permission.CONNECTIVITY_INTERNAL] ∧
    (EthernetService.SetIfaceConfig denyAll "eth0" (some 4) managedService).ret
      = denyAll.ETHERNET_ERROR :=
  ⟨rfl, rfl, rfl, rfl, by decide, rfl, rfl, rfl, rfl, rfl, rfl, rfl⟩

theorem OnAddSystemAbility_tracks_dependencies_witness :
    freshService.dependentServiceState_ = 0 ∧ freshService.ethManagement_ = none ∧
    ((EthernetService.OnAddSystemAbilityAll denyAll sampleNotes freshService).post.ethManagement_.isSome
        = true ↔
      denyAll.COMM_NET_CONN_MANAGER_SYS_ABILITY_ID ∈ sampleNotes.map Prod.fst ∧
        denyAll.COMMON_EVENT_SERVICE_ID ∈ sampleNotes.map Prod.fst) ∧
    (EthernetService.OnAddSystemAbilityAll denyAll sampleNotes freshService).calls.countP
        Call.isMakeEthernetManagement ≤ 1 ∧
    (EthernetService.OnAddSystemAbilityAll denyAll sampleNotes freshService).calls
      = [Call.InitManagement, Call.MakeEthernetManagement, Call.ManagementInit,
          Call.InitManagement] ∧
    (EthernetService.OnAddSystemAbilityAll denyAll sampleNotes freshService).post
      = ⟨ServiceRunningState.STATE_STOPPED, false, 3, some 1, none⟩ :=
  ⟨rfl, rfl,
    (OnAddSystemAbility_tracks_dependencies denyAll freshService sampleNotes rfl rfl).2.2.2.1,
    (OnAddSystemAbility_tracks_dependencies denyAll freshService sampleNotes rfl rfl).2.2.2.2.1,
    by decide, by decide⟩

theorem service_lifecycle_witness :
    freshService.state_ ≠ ServiceRunningState.STATE_RUNNING ∧
    ((EthernetService.OnStart grantAll freshService).post.state_
        = ServiceRunningState.STATE_RUNNING ↔
      (EthernetService.Init grantAll freshService).ret = true) ∧
    (EthernetService.OnStart grantAll freshService).post.state_
      = ServiceRunningState.STATE_RUNNING ∧
    managedService.state_ = ServiceRunningState.STATE_RUNNING ∧
    (EthernetService.OnStart grantAll managedService).post = managedService ∧
    (EthernetService.OnStart grantAll (EthernetService.OnStop managedService)).calls.any
      Call.isPublish = true :=
  ⟨by decide,
    ((service_lifecycle grantAll freshService).2.1 (by decide)).2.1,
    by decide, rfl,
    ((service_lifecycle grantAll managedService).1 rfl).1,
    ((service_lifecycle grantAll managedService).2.2.2 (by decide)).1⟩

/-! ## Theorems about `NetworkShareMainStateMachine` -/

section MainStateMachineFacts

variable {Sub Up : Type}

lemma MainSmLookup_some (stateTable : List MainSmStateTable) (eventId curState : Int)
    (row : MainSmStateTable) (h : MainSmLookup stateTable eventId curState = some row) :
    row ∈ stateTable ∧ row.event_ = eventId ∧ row.curState_ = curState := by
  unfold MainSmLookup at h
  have h1 := List.mem_of_find?_eq_some h
  have h2 := List.find?_some h
  simp only [Bool.and_eq_true, decide_eq_true_eq] at h2
  exact ⟨h1, h2.1, h2.2⟩

lemma MainSmLookup_isSome (stateTable : List MainSmStateTable) (eventId curState : Int) :
    (MainSmLookup stateTable eventId curState).isSome = true ↔
      ∃ row ∈ stateTable, row.event_ = eventId ∧ row.curState_ = curState := by
  unfold MainSmLookup
  rw [List.find?_isSome]
  simp only [Bool.and_eq_true, decide_eq_true_eq]

lemma MainSmStateSwitch_curState (ids : MainStateIds) (newState : Int)
    (m : NetworkShareMainStateMachine Sub) :
    (MainSmStateSwitch ids newState m).curState_ = newState := by
  unfold MainSmStateSwitch runEnterHook runExitHook InitStateEnter AliveStateEnter
    ErrorStateEnter InitStateExit AliveStateExit ErrorStateExit
  split_ifs <;> rfl

lemma SwitcheToErrorState_curState (ids : MainStateIds) (errType : Int)
    (m : NetworkShareMainStateMachine Sub) :
    (SwitcheToErrorState ids errType m).curState_ = ids.MAINSTATE_ERROR := by
  unfold SwitcheToErrorState ErrorStateEnter
  split_ifs with h1 h2
  · exact h1
  · exact h1
  · rfl

lemma MainSmEventHandle_cases (ids : MainStateIds) (stateTable : List MainSmStateTable)
    (handlers : HandlerBodies Sub Up) (eventId : Int) (messageObj : MessageObj Sub Up)
    (m : NetworkShareMainStateMachine Sub) :
    (MainSmLookup stateTable eventId m.curState_ = none ∧
      MainSmEventHandle ids stateTable handlers eventId messageObj m = ⟨(), m, []⟩) ∨
    (∃ row, MainSmLookup stateTable eventId m.curState_ = some row ∧
      (MainSmEventHandle ids stateTable handlers eventId messageObj m).calls = [row.func_] ∧
      (((handlers row.func_ messageObj m).1 = HandlerStatus.success ∧
          (MainSmEventHandle ids stateTable handlers eventId messageObj m).post
            = MainSmStateSwitch ids row.nextState_ (handlers row.func_ messageObj m).2) ∨
        ((handlers row.func_ messageObj m).1 = HandlerStatus.defer ∧
          (MainSmEventHandle ids stateTable handlers eventId messageObj m).post
            = (handlers row.func_ messageObj m).2) ∨
        (∃ errType, (handlers row.func_ messageObj m).1 = HandlerStatus.fatal errType ∧
          (MainSmEventHandle ids stateTable handlers eventId messageObj m).post
            = SwitcheToErrorState ids errType (handlers row.func_ messageObj m).2))) := by
  unfold MainSmEventHandle
  cases hl : MainSmLookup stateTable eventId m.curState_ with
  | none => exact Or.inl ⟨rfl, rfl⟩
  | some row =>
    refine Or.inr ⟨row, rfl, ?_⟩
    cases hs : (handlers row.func_ messageObj m).1 with
    | success => simp [hs]
    | defer => simp [hs]
    | fatal errType => simp [hs]

lemma sampleHandlers_keep_state : HandlersKeepState sampleHandlers := by
  intro f messageObj m
  cases f <;> rfl

/-- C1: dispatch by composite key. The row `MainSmEventHandle` works with is a row of the
table whose `(event_, curState_)` equals `(eventId, current state)`, its handler is the
one handler invoked, and such a row is found exactly when the table has a row with that
pair. When no row of the table has that pair the call is a no-op: the machine afterwards
equals the machine before (`curState_`, `errorType_`, `hasSetForward_`,
`netshare_requester_` and `subMachineList_` are all its mutable members) and no handler
is invoked. -/
theorem MainSmEventHandle_dispatches_on_composite_key (ids : MainStateIds)
    (stateTable : List MainSmStateTable) (handlers : HandlerBodies Sub Up) (eventId : Int)
    (messageObj : MessageObj Sub Up) (m : NetworkShareMainStateMachine Sub) :
    (∀ row, MainSmLookup stateTable eventId m.curState_ = some row →
      row ∈ stateTable ∧ row.event_ = eventId ∧ row.curState_ = m.curState_ ∧
      (MainSmEventHandle ids stateTable handlers eventId messageObj m).calls = [row.func_]) ∧
    ((MainSmLookup stateTable eventId m.curState_).isSome = true ↔
      ∃ row ∈ stateTable, row.event_ = eventId ∧ row.curState_ = m.curState_) ∧
    ((∀ row ∈ stateTable, ¬ (row.event_ = eventId ∧ row.curState_ = m.curState_)) →
      (MainSmEventHandle ids stateTable handlers eventId messageObj m).post = m ∧
      (MainSmEventHandle ids stateTable handlers eventId messageObj m).post.curState_
        = m.curState_ ∧
      (MainSmEventHandle ids stateTable handlers eventId messageObj m).post.errorType_
        = m.errorType_ ∧
      (MainSmEventHandle ids stateTable handlers eventId messageObj m).post.hasSetForward_
        = m.hasSetForward_ ∧
      (MainSmEventHandle ids stateTable handlers eventId messageObj m).post.netshare_requester_
        = m.netshare_requester_ ∧
      (MainSmEventHandle ids stateTable handlers eventId messageObj m).post.subMachineList_
        = m.subMachineList_ ∧
      (MainSmEventHandle ids stateTable handlers eventId messageObj m).calls = []) := by
  refine ⟨?_, MainSmLookup_isSome _ _ _, ?_⟩
  · intro row hrow
    obtain ⟨h1, h2, h3⟩ := MainSmLookup_some _ _ _ _ hrow
    refine ⟨h1, h2, h3, ?_⟩
    rcases MainSmEventHandle_cases ids stateTable handlers eventId messageObj m with
      ⟨hn, -⟩ | ⟨row2, hrow2, hc, -⟩
    · rw [hn] at hrow; cases hrow
    · rw [hrow2] at hrow; cases hrow; exact hc
  · intro hno
    rcases MainSmEventHandle_cases ids stateTable handlers eventId messageObj m with
      ⟨-, h⟩ | ⟨row, hrow, -, -⟩
    · rw [h]
      exact ⟨rfl, rfl, rfl, rfl, rfl, rfl, rfl⟩
    · obtain ⟨h1, h2, h3⟩ := MainSmLookup_some _ _ _ _ hrow
      exact absurd ⟨h2, h3⟩ (hno row h1)

/-- C2: outcome of a matched event. When the lookup on `(eventId, current state)` selects
row `row`, `MainSmEventHandle` invokes exactly `row.func_` and then: on success it runs
`MainSmStateSwitch(row.nextState_)` on what the handler left, so the coordinator state is
`row.nextState_`; on defer it leaves the machine exactly as the handler left it, so the
coordinator state is unchanged for handlers that do not write `curState_` themselves; on
fatal it runs `SwitcheToErrorState(errType)`, so the coordinator state is Error whatever
`row.nextState_` is. -/
theorem MainSmEventHandle_follows_handler_status (ids : MainStateIds)
    (stateTable : List MainSmStateTable) (handlers : HandlerBodies Sub Up) (eventId : Int)
    (messageObj : MessageObj Sub Up) (m : NetworkShareMainStateMachine Sub)
    (row : MainSmStateTable)
    (hrow : MainSmLookup stateTable eventId m.curState_ = some row) :
    (MainSmEventHandle ids stateTable handlers eventId messageObj m).calls = [row.func_] ∧
    ((handlers row.func_ messageObj m).1 = HandlerStatus.success →
      (MainSmEventHandle ids stateTable handlers eventId messageObj m).post
        = MainSmStateSwitch ids row.nextState_ (handlers row.func_ messageObj m).2 ∧
      (MainSmEventHandle ids stateTable handlers eventId messageObj m).post.curState_
        = row.nextState_) ∧
    ((handlers row.func_ messageObj m).1 = HandlerStatus.defer →
      (MainSmEventHandle ids stateTable handlers eventId messageObj m).post
        = (handlers row.func_ messageObj m).2 ∧
      (HandlersKeepState handlers →
        (MainSmEventHandle ids stateTable handlers eventId messageObj m).post.curState_
          = m.curState_)) ∧
    (∀ errType, (handlers row.func_ messageObj m).1 = HandlerStatus.fatal errType →
      (MainSmEventHandle ids stateTable handlers eventId messageObj m).post
        = SwitcheToErrorState ids errType (handlers row.func_ messageObj m).2 ∧
      (MainSmEventHandle ids stateTable handlers eventId messageObj m).post.curState_
        = ids.MAINSTATE_ERROR) := by
  rcases MainSmEventHandle_cases ids stateTable handlers eventId messageObj m with
    ⟨hn, -⟩ | ⟨row2, hrow2, hc, h⟩
  · rw [hn] at hrow; cases hrow
  · rw [hrow2] at hrow
    cases hrow
    refine ⟨hc, ?_, ?_, ?_⟩
    · intro hs
      rcases h with ⟨-, hp⟩ | ⟨hst, -⟩ | ⟨e, hst, -⟩
      · exact ⟨hp, by rw [hp, MainSmStateSwitch_curState]⟩
      · rw [hst] at hs; cases hs
      · rw [hst] at hs; cases hs
    · intro hs
      rcases h with ⟨hst, -⟩ | ⟨-, hp⟩ | ⟨e, hst, -⟩
      · rw [hst] at hs; cases hs
      · exact ⟨hp, fun hkeep => by rw [hp, hkeep]⟩
      · rw [hst] at hs; cases hs
    · intro errType hs
      rcases h with ⟨hst, -⟩ | ⟨hst, -⟩ | ⟨e, hst, hp⟩
      · rw [hst] at hs; cases hs
      · rw [hst] at hs; cases hs
      · rw [hst] at hs
        cases hs
        exact ⟨hp, by rw [hp, SwitcheToErrorState_curState]⟩

end MainStateMachineFacts

/-! ## Evaluations of `NetworkShareMainStateMachine` on a concrete table -/

theorem MainSmEventHandle_dispatches_on_composite_key_witness :
    (∀ row ∈ sampleTable, ¬ (row.event_ = 4 ∧ row.curState_ = constructedMachine.curState_)) ∧
    (MainSmEventHandle sampleIds sampleTable sampleHandlers 4 MessageObj.empty
        constructedMachine).post = constructedMachine ∧
    (MainSmEventHandle sampleIds sampleTable sampleHandlers 4 MessageObj.empty
        constructedMachine).calls = [] ∧
    (MainSmEventHandle sampleIds sampleTable sampleHandlers 4 MessageObj.empty
        erroredMachine).calls = [HandleFunc.HandleErrorClear] :=
  ⟨by decide,
    ((MainSmEventHandle_dispatches_on_composite_key sampleIds sampleTable sampleHandlers 4
      MessageObj.empty constructedMachine).2.2 (by decide)).1,
    ((MainSmEventHandle_dispatches_on_composite_key sampleIds sampleTable sampleHandlers 4
      MessageObj.empty constructedMachine).2.2 (by decide)).2.2.2.2.2.2,
    ((MainSmEventHandle_dispatches_on_composite_key sampleIds sampleTable sampleHandlers 4
      MessageObj.empty erroredMachine).1 ⟨4, 2, 0, HandleFunc.HandleErrorClear⟩ rfl).2.2.2⟩

theorem MainSmEventHandle_follows_handler_status_witness :
    MainSmLookup sampleTable 2 forwardingMachine.curState_
      = some ⟨2, 1, 1, HandleFunc.HandleAliveInterfaceStateInactive⟩ ∧
    (sampleHandlers HandleFunc.HandleAliveInterfaceStateInactive MessageObj.empty
        forwardingMachine).1 = HandlerStatus.fatal 7 ∧
    (MainSmEventHandle sampleIds sampleTable sampleHandlers 2 MessageObj.empty
        forwardingMachine).post.curState_ = sampleIds.MAINSTATE_ERROR ∧
    (MainSmEventHandle sampleIds sampleTable sampleHandlers 2 MessageObj.empty
        forwardingMachine).post = ⟨"hotspot", 7, false, ["wlan1"], 2⟩ ∧
    (MainSmEventHandle sampleIds sampleTable sampleHandlers 3 MessageObj.empty
        forwardingMachine).post.curState_ = forwardingMachine.curState_ ∧
    (MainSmEventHandle sampleIds sampleTable sampleHandlers 1 MessageObj.empty
        constructedMachine).post.curState_ = 1 :=
  ⟨rfl, rfl,
    ((MainSmEventHandle_follows_handler_status sampleIds sampleTable sampleHandlers 2
      MessageObj.empty forwardingMachine ⟨2, 1, 1, HandleFunc.HandleAliveInterfaceStateInactive⟩
      rfl).2.2.2 7 rfl).2,
    by decide,
    ((MainSmEventHandle_follows_handler_status sampleIds sampleTable sampleHandlers 3
      MessageObj.empty forwardingMachine ⟨3, 1, 1, HandleFunc.HandleAliveUpstreamMonitorCallback⟩
      rfl).2.2.1 rfl).2 sampleHandlers_keep_state,
    ((MainSmEventHandle_follows_handler_status sampleIds sampleTable sampleHandlers 1
      MessageObj.empty constructedMachine ⟨1, 0, 1, HandleFunc.HandleInitInterfaceStateActive⟩
      rfl).2.1 rfl).2⟩

end NetManagerStandard
end OHOS
